import Mathlib

/-!
Verification development for the `aiproductmanager` repository.

The Python sources under `src/` are shallowly embedded below:
* `core/models/run.py`        → `RunStatus`, `AgentRole`, `Message`, `Run`
* `core/llm_client.py`        → `StubLLMClient`, `AutoGenLLMClient`, `LLMClient`
* `backend/services/storage.py` → `Store`, `StorageService`
* `core/orchestration.py`     → `Orchestrator`

Machine-level conventions: Python `str` is `String` (operating on `List Char`),
timestamps (`datetime.utcnow()`) are `Nat` clock values passed explicitly,
uuid4-generated identifiers are explicit `String` parameters, exceptions are
`Except String` values, and the filesystem plus the in-memory run cache of
`StorageService` are collapsed into an explicit `Store` value threaded through
every operation.  A Boolean `Store.saveOk` models whether filesystem writes
succeed; the exceptions the Python code catches around writes are exactly the
`saveOk = false` branches.
-/

namespace AIPM

/-! ## Python string primitives

`pyReplace`, `pyContains`, `pyLower`, `pyUpper` model Python's
`str.replace(old, new)` (all non-overlapping occurrences, leftmost first),
`old in s`, `str.lower()` and `str.upper()`.  The sources only ever use them
on ASCII text, where `Char.toLower`/`Char.toUpper` agree with Python. -/

/-- Is `pat` a prefix of `s`? (Boolean, structural.) -/
def isPrefixList : List Char → List Char → Bool
  | [], _ => true
  | _ :: _, [] => false
  | p :: ps, c :: cs => p == c && isPrefixList ps cs

/-- Does `pat` occur as a contiguous substring of `s`?  Models Python `pat in s`. -/
def containsList (pat : List Char) : List Char → Bool
  | [] => isPrefixList pat []
  | c :: cs => isPrefixList pat (c :: cs) || containsList pat cs

/-- Worker for `replaceList`, structurally recursive on a fuel argument so
that the kernel can evaluate it; one unit of fuel is spent per character
consumed, so `fuel = s.length` always suffices. -/
def replaceListAux (pat rep : List Char) : Nat → List Char → List Char
  | _, [] => []
  | 0, s => s
  | fuel + 1, c :: cs =>
    if 0 < pat.length ∧ isPrefixList pat (c :: cs) = true then
      rep ++ replaceListAux pat rep fuel ((c :: cs).drop pat.length)
    else
      c :: replaceListAux pat rep fuel cs

/-- Replace every non-overlapping occurrence of `pat` in `s` by `rep`,
scanning left to right: Python `s.replace(pat, rep)`.  The replacement
patterns appearing in the sources are always non-empty; for an empty `pat`
this returns `s` unchanged (that case is never exercised). -/
def replaceList (pat rep s : List Char) : List Char :=
  replaceListAux pat rep s.length s

/-- Python `s.replace(pat, rep)`. -/
def pyReplace (s pat rep : String) : String := ⟨replaceList pat.data rep.data s.data⟩

/-- Python `pat in s`. -/
def pyContains (s pat : String) : Bool := containsList pat.data s.data

/-- Python `s.lower()` (ASCII). -/
def pyLower (s : String) : String := ⟨s.data.map Char.toLower⟩

/-- Python `s.upper()` (ASCII). -/
def pyUpper (s : String) : String := ⟨s.data.map Char.toUpper⟩

/-- Python `any(keyword in prompt.lower() for keyword in keywords)`
as used by `_apply_keyword_replacement` in `core/llm_client.py`. -/
def containsAnyKeyword (prompt : String) (keywords : List String) : Bool :=
  keywords.any fun k => pyContains (pyLower prompt) k

/-! ## `core/llm_client.py` — keyword-driven deterministic generation -/

/-- `StubLLMClient._apply_keyword_replacement` (src/core/llm_client.py,
lines 52–95): scans the prompt, case-insensitively, for four domain keyword
sets in priority order and substitutes the six placeholder tokens with the
matched domain's phrases, or with generic text when nothing matches. -/
def StubLLMClient.apply_keyword_replacement (response prompt : String) : String :=
  if containsAnyKeyword prompt ["fitness", "workout", "exercise", "gym"] then
    let response := pyReplace response "[problem domain]" "fitness tracking"
    let response := pyReplace response "[main use case]" "workout planning"
    let response := pyReplace response "[item]" "workout"
    let response := pyReplace response "[Item]" "Workout"
    let response := pyReplace response "[Product]" "Fitness Tracker"
    let response := pyReplace response "[Product Name]" "Fitness Tracker"
    response
  else if containsAnyKeyword prompt ["finance", "budget", "money", "investment", "banking"] then
    let response := pyReplace response "[problem domain]" "personal finance management"
    let response := pyReplace response "[main use case]" "budget tracking"
    let response := pyReplace response "[item]" "transaction"
    let response := pyReplace response "[Item]" "Transaction"
    let response := pyReplace response "[Product]" "Finance Manager"
    let response := pyReplace response "[Product Name]" "Finance Manager"
    response
  else if containsAnyKeyword prompt ["meditation", "mindfulness", "relax", "stress", "mental"] then
    let response := pyReplace response "[problem domain]" "stress management and mental wellness"
    let response := pyReplace response "[main use case]" "meditation practice"
    let response := pyReplace response "[item]" "meditation session"
    let response := pyReplace response "[Item]" "Meditation Session"
    let response := pyReplace response "[Product]" "Mindfulness App"
    let response := pyReplace response "[Product Name]" "Mindfulness App"
    response
  else if containsAnyKeyword prompt ["productivity", "task", "todo", "schedule", "project", "team"] then
    let response := pyReplace response "[problem domain]" "task management and productivity"
    let response := pyReplace response "[main use case]" "task organization"
    let response := pyReplace response "[item]" "task"
    let response := pyReplace response "[Item]" "Task"
    let response := pyReplace response "[Product]" "Productivity Manager"
    let response := pyReplace response "[Product Name]" "Productivity Manager"
    response
  else
    let response := pyReplace response "[problem domain]" "the problem domain"
    let response := pyReplace response "[main use case]" "the main use case"
    let response := pyReplace response "[item]" "item"
    let response := pyReplace response "[Item]" "Item"
    let response := pyReplace response "[Product]" "Product"
    let response := pyReplace response "[Product Name]" "Product Name"
    response

/-- `AutoGenLLMClient._apply_keyword_replacement` (src/core/llm_client.py,
lines 195–238): a textual duplicate of the stub client's substitution,
used on the remote client's fallback path. -/
def AutoGenLLMClient.apply_keyword_replacement (response prompt : String) : String :=
  if containsAnyKeyword prompt ["fitness", "workout", "exercise", "gym"] then
    let response := pyReplace response "[problem domain]" "fitness tracking"
    let response := pyReplace response "[main use case]" "workout planning"
    let response := pyReplace response "[item]" "workout"
    let response := pyReplace response "[Item]" "Workout"
    let response := pyReplace response "[Product]" "Fitness Tracker"
    let response := pyReplace response "[Product Name]" "Fitness Tracker"
    response
  else if containsAnyKeyword prompt ["finance", "budget", "money", "investment", "banking"] then
    let response := pyReplace response "[problem domain]" "personal finance management"
    let response := pyReplace response "[main use case]" "budget tracking"
    let response := pyReplace response "[item]" "transaction"
    let response := pyReplace response "[Item]" "Transaction"
    let response := pyReplace response "[Product]" "Finance Manager"
    let response := pyReplace response "[Product Name]" "Finance Manager"
    response
  else if containsAnyKeyword prompt ["meditation", "mindfulness", "relax", "stress", "mental"] then
    let response := pyReplace response "[problem domain]" "stress management and mental wellness"
    let response := pyReplace response "[main use case]" "meditation practice"
    let response := pyReplace response "[item]" "meditation session"
    let response := pyReplace response "[Item]" "Meditation Session"
    let response := pyReplace response "[Product]" "Mindfulness App"
    let response := pyReplace response "[Product Name]" "Mindfulness App"
    response
  else if containsAnyKeyword prompt ["productivity", "task", "todo", "schedule", "project", "team"] then
    let response := pyReplace response "[problem domain]" "task management and productivity"
    let response := pyReplace response "[main use case]" "task organization"
    let response := pyReplace response "[item]" "task"
    let response := pyReplace response "[Item]" "Task"
    let response := pyReplace response "[Product]" "Productivity Manager"
    let response := pyReplace response "[Product Name]" "Productivity Manager"
    response
  else
    let response := pyReplace response "[problem domain]" "the problem domain"
    let response := pyReplace response "[main use case]" "the main use case"
    let response := pyReplace response "[item]" "item"
    let response := pyReplace response "[Item]" "Item"
    let response := pyReplace response "[Product]" "Product"
    let response := pyReplace response "[Product Name]" "Product Name"
    response

/-- Modelled from the spec: `core/prompts/templates.py` is not under `src/`
(only its names are re-exported by `core/prompts/__init__.py`).  Per spec
§4.2 the deterministic backend returns a canned per-stage template string
containing the six placeholder tokens; this stands in for `get_stub_response`. -/
def get_stub_response (agent_name : String) : String :=
  "Canned " ++ agent_name ++ " analysis of [Product Name], a [Product] for " ++
    "[problem domain]: it supports [main use case], with one [item] and one [Item]."

/-- `StubLLMClient.generate` (src/core/llm_client.py, lines 36–50): returns
the canned per-stage response with keyword replacement applied to it based on
the prompt.  The `asyncio.sleep` is timing only and is not modelled. -/
def StubLLMClient.generate (prompt agent_name : String) : String :=
  StubLLMClient.apply_keyword_replacement (get_stub_response agent_name) prompt

/-- Outcome of the external AutoGen interaction performed by
`AutoGenLLMClient.generate` (initialization, agent construction,
`initiate_chat`, and the `chat_messages` lookup).  `raised e` models any
exception escaping those steps (all are inside the one `try` block);
`chat msgs` models a completed interaction, where `msgs = none` stands for a
missing or empty `chat_messages` entry for the user proxy and
`chat (some l)` for the recorded list of message contents. -/
inductive RemoteOutcome where
  | raised (e : String)
  | chat (msgs : Option (List String))

/-- The failure cases of the remote interaction: an exception, a missing
`chat_messages` entry, or an empty message list. -/
def RemoteOutcome.isFailure : RemoteOutcome → Bool
  | .raised _ => true
  | .chat none => true
  | .chat (some msgs) => msgs.isEmpty

/-- `AutoGenLLMClient.generate` (src/core/llm_client.py, lines 141–193):
delegates to the AutoGen conversation (the `RemoteOutcome` parameter) and
returns the last message content; on an exception or a missing/empty message
list it falls back to the canned response with keyword replacement.  The
function is total: the broad `except Exception` means no error is re-raised. -/
def AutoGenLLMClient.generate (remote : RemoteOutcome) (prompt agent_name : String) : String :=
  match remote with
  | .raised _ =>
    AutoGenLLMClient.apply_keyword_replacement (get_stub_response agent_name) prompt
  | .chat none =>
    AutoGenLLMClient.apply_keyword_replacement (get_stub_response agent_name) prompt
  | .chat (some msgs) =>
    match msgs.getLast? with
    | some m => m
    | none =>
      AutoGenLLMClient.apply_keyword_replacement (get_stub_response agent_name) prompt

/-! ## `core/models/run.py` — the Run aggregate -/

/-- `RunStatus` (src/core/models/run.py, lines 7–12). -/
inductive RunStatus where
  | pending
  | running
  | completed
  | failed
deriving DecidableEq

/-- `AgentRole` (src/core/models/run.py, lines 14–22). -/
inductive AgentRole where
  | strategist
  | architect
  | ux_writer
  | mockup_designer
  | synthesizer
  | user
  | system
deriving DecidableEq

/-- The `.value` string of an `AgentRole` enum member. -/
def AgentRole.value : AgentRole → String
  | .strategist => "strategist"
  | .architect => "architect"
  | .ux_writer => "ux_writer"
  | .mockup_designer => "mockup_designer"
  | .synthesizer => "synthesizer"
  | .user => "user"
  | .system => "system"

/-- The metadata dict the orchestrator attaches to every message:
`agent` name and `prompt_length`. -/
structure MessageMeta where
  agent : String
  prompt_length : Nat
deriving DecidableEq

/-- `Message` (src/core/models/run.py, lines 24–31).  The uuid4 `id` is
external randomness and is not modelled; `timestamp` is the `Nat` clock. -/
structure Message where
  role : AgentRole
  content : String
  timestamp : Nat
  step : Nat
  metadata : MessageMeta
deriving DecidableEq

/-- `Run` (src/core/models/run.py, lines 33–55).  The uuid4 `id` is an
explicit `String`; dict fields are association lists. -/
structure Run where
  id : String
  idea : String
  status : RunStatus
  created_at : Nat
  updated_at : Nat
  completed_at : Option Nat
  messages : List Message
  user_answers : List (String × String)
  assumptions : List String
  artifacts : List (String × String)
  metadata : List (String × String)
deriving DecidableEq

/-- Python dict assignment `m[k] = v` on an insertion-ordered association
list: updating an existing key keeps its position, a new key is appended. -/
def upsert {α β : Type} [DecidableEq α] : List (α × β) → α → β → List (α × β)
  | [], k, v => [(k, v)]
  | (k₁, v₁) :: rest, k, v =>
    if k₁ = k then (k, v) :: rest else (k₁, v₁) :: upsert rest k v

/-- `Run.add_message` (src/core/models/run.py, lines 57–67): appends the
message and bumps `updated_at`.  (The Python method also returns the new
message; callers in the orchestrator ignore it.) -/
def Run.add_message (r : Run) (role : AgentRole) (content : String) (step : Nat)
    (metadata : MessageMeta) (now : Nat) : Run :=
  { r with
    messages := r.messages ++ [⟨role, content, now, step, metadata⟩]
    updated_at := now }

/-- `Run.update_status` (src/core/models/run.py, lines 69–74): sets the
status, bumps `updated_at`, and stamps `completed_at` with the current time
whenever the new status is `completed`. -/
def Run.update_status (r : Run) (status : RunStatus) (now : Nat) : Run :=
  { r with
    status := status
    updated_at := now
    completed_at := if status = .completed then some now else r.completed_at }

/-- `Run.get_artifact_path` (src/core/models/run.py, lines 76–78). -/
def Run.get_artifact_path (r : Run) (artifact_type : String) : String :=
  (r.artifacts.lookup artifact_type).getD ""

/-- `Run.set_artifact_path` (src/core/models/run.py, lines 80–83). -/
def Run.set_artifact_path (r : Run) (artifact_type path : String) (now : Nat) : Run :=
  { r with
    artifacts := upsert r.artifacts artifact_type path
    updated_at := now }

/-! ## `backend/services/storage.py` — the run store -/

/-- The persistent state owned by `StorageService`.  `runs` collapses the
on-disk `run.json` files and the in-memory `_runs_cache` (the code keeps them
in sync: every successful `_save_run` is paired with a cache update);
`files` is the artifact filesystem, keyed by path; `saveOk` models whether
filesystem writes succeed (the exceptions caught in `update_run`,
`save_artifact` and the PDF generator are exactly the `saveOk = false` case). -/
structure Store where
  runs : List (String × Run)
  files : List (String × String)
  saveOk : Bool
deriving DecidableEq

/-- A model of the `json` module as used by the sources: `loads` returns
`none` where Python raises `JSONDecodeError`; `dumps` is
`json.dumps(·, indent=2)`; `dumpsStrMap` is `json.dumps` of a string-keyed
dict (the `user_answers` serialization in `_run_architect`);
`dumpsConversation` is `json.dumps(conversation_data, indent=2)` built in
`Orchestrator._save_conversation_artifact`. -/
structure JsonModel (J : Type) where
  loads : String → Option J
  dumps : J → String
  dumpsStrMap : List (String × String) → String
  dumpsConversation : Run → String

/-- `StorageService.get_run` (src/backend/services/storage.py, lines 45–64):
cache and disk are collapsed into `Store.runs`. -/
def StorageService.get_run (st : Store) (run_id : String) : Option Run :=
  st.runs.lookup run_id

/-- `StorageService.update_run` (src/backend/services/storage.py, lines
66–74): writes the run and returns `true`; any exception from `_save_run` is
caught and `false` is returned with the store unchanged. -/
def StorageService.update_run (st : Store) (run : Run) : Store × Bool :=
  if st.saveOk then
    ({ st with runs := upsert st.runs run.id run }, true)
  else
    (st, false)

/-- `StorageService.create_run` (src/backend/services/storage.py, lines
24–43): builds a pending `Run` for the idea, registers the five artifact
paths under the run directory, and saves it.  `_save_run` is called directly
(not through `update_run`), so a write failure propagates as an exception. -/
def StorageService.create_run (st : Store) (newId idea : String) (now : Nat) :
    Except String (Store × Run) :=
  let run : Run :=
    { id := newId, idea := idea, status := .pending, created_at := now,
      updated_at := now, completed_at := none, messages := [],
      user_answers := [], assumptions := [], artifacts := [], metadata := [] }
  let run := run.set_artifact_path "prd_markdown" (newId ++ "/PRD.md") now
  let run := run.set_artifact_path "prd_pdf" (newId ++ "/PRD.pdf") now
  let run := run.set_artifact_path "conversation" (newId ++ "/conversation.json") now
  let run := run.set_artifact_path "mockup_json" (newId ++ "/mockup.json") now
  let run := run.set_artifact_path "bundle" (newId ++ "/bundle.zip") now
  if st.saveOk then
    .ok ({ st with runs := upsert st.runs run.id run }, run)
  else
    .error "failed to save run"

/-- `StorageService.save_artifact` (src/backend/services/storage.py, lines
95–122): looks the run up, resolves the artifact path, and writes the
content; the `conversation` type is parsed and re-serialized
(`json.loads` + `json.dump(…, indent=2)`), every other type is written
verbatim.  Any exception (including a `loads` failure for `conversation`)
is caught and reported as `false`.  The Python guard `if not artifact_path`
can never fire, because `Path` objects are always truthy, so it is not
modelled. -/
def StorageService.save_artifact {J : Type} (jm : JsonModel J) (st : Store)
    (run_id artifact_type content : String) : Store × Bool :=
  match StorageService.get_run st run_id with
  | none => (st, false)
  | some run =>
    let path := run.get_artifact_path artifact_type
    if st.saveOk then
      if artifact_type = "conversation" then
        match jm.loads content with
        | some d => ({ st with files := upsert st.files path (jm.dumps d) }, true)
        | none => (st, false)
      else
        ({ st with files := upsert st.files path content }, true)
    else
      (st, false)

/-- `PDFGenerator.generate_from_markdown` (src/backend/services/
pdf_generator.py, lines 20–35): renders the markdown to the output path,
degrading to a placeholder file on renderer errors; returns whether a write
happened.  Rendering internals are out of scope (spec §1); the write is
modelled as storing the content at the path, failing when `saveOk` is
`false`. -/
def PDFGenerator.generate_from_markdown (st : Store) (markdown_content output_path : String) :
    Store × Bool :=
  if st.saveOk then
    ({ st with files := upsert st.files output_path markdown_content }, true)
  else
    (st, false)

/-! ## `core/orchestration.py` — the five-stage pipeline -/

/-- The `Settings` fields the orchestrator reads
(src/backend/app/core/config.py). -/
structure Settings where
  max_strategist_questions : Nat

/-- The default configuration (src/backend/app/core/config.py, line 27). -/
def settings : Settings := { max_strategist_questions := 5 }

/-- Modelled from the spec: `core/prompts/templates.py` is not under `src/`,
so `get_agent_prompt` is reconstructed from spec §4.1 — a pure function
rendering the stage's fixed template over its named context values.  The
template is rendered as the stage name followed by each `key: value` pair. -/
def get_agent_prompt (stage : String) (context : List (String × String)) : String :=
  stage ++ " prompt\n" ++
    String.intercalate "\n" (context.map fun kv => kv.1 ++ ": " ++ kv.2)

/-- Modelled from the spec: `core/prompts/templates.py` is not under `src/`;
spec §4.1 describes `get_prd_template` as the fixed document template handed
to the synthesizer stage. -/
def get_prd_template : String :=
  "# [Product Name] PRD\n## Overview\n## Requirements\n## Execution Plan"

/-- The generation backend as the orchestrator sees it:
`generate(prompt, agent_name)`, which may raise (`Except.error`). -/
structure LLMClient where
  generate : String → String → Except String String

/-- The `LLMClient` wrapping of a total generation function: every call
succeeds.  (`StubLLMClient.generate` is total, so the stub backend is
`totalClient StubLLMClient.generate`.) -/
def totalClient (f : String → String → String) : LLMClient :=
  ⟨fun prompt agent_name => .ok (f prompt agent_name)⟩

/-- A backend whose generation call raises `e` for the `ux_writer` stage and
succeeds (with `f`) everywhere else; models an exception propagating out of
`llm_client.generate` during stage 3. -/
def stage3FailClient (f : String → String → String) (e : String) : LLMClient :=
  ⟨fun prompt agent_name =>
    if agent_name = "ux_writer" then .error e else .ok (f prompt agent_name)⟩

/-- `Orchestrator._run_strategist` (src/core/orchestration.py, lines 69–92):
build the strategist prompt, generate, append the step-1 message, persist.
The `update_run` Boolean is ignored, as in the source. -/
def Orchestrator.run_strategist (client : LLMClient) (st : Store) (run : Run)
    (now : Nat) : Store × Except String Run :=
  let prompt := get_agent_prompt "strategist"
    [("idea", run.idea), ("max_questions", toString settings.max_strategist_questions)]
  match client.generate prompt "strategist" with
  | .error e => (st, .error e)
  | .ok response =>
    let run := run.add_message .strategist response 1 ⟨"strategist", prompt.length⟩ now
    let st := (StorageService.update_run st run).1
    (st, .ok run)

/-- `Orchestrator._run_architect` (src/core/orchestration.py, lines 94–122):
context is the idea, the last strategist message (or empty), and the
serialized `user_answers`; appends the step-2 message and persists. -/
def Orchestrator.run_architect {J : Type} (jm : JsonModel J) (client : LLMClient)
    (st : Store) (run : Run) (now : Nat) : Store × Except String Run :=
  let strategist_messages := run.messages.filter fun m => m.role == .strategist
  let strategist_analysis := (strategist_messages.getLast?.map Message.content).getD ""
  let prompt := get_agent_prompt "architect"
    [("idea", run.idea), ("strategist_analysis", strategist_analysis),
     ("user_answers", jm.dumpsStrMap run.user_answers)]
  match client.generate prompt "architect" with
  | .error e => (st, .error e)
  | .ok response =>
    let run := run.add_message .architect response 2 ⟨"architect", prompt.length⟩ now
    let st := (StorageService.update_run st run).1
    (st, .ok run)

/-- `Orchestrator._run_ux_writer` (src/core/orchestration.py, lines 124–151):
context is the idea and the last architect message (or empty); appends the
step-3 message and persists. -/
def Orchestrator.run_ux_writer (client : LLMClient) (st : Store) (run : Run)
    (now : Nat) : Store × Except String Run :=
  let architect_messages := run.messages.filter fun m => m.role == .architect
  let architect_analysis := (architect_messages.getLast?.map Message.content).getD ""
  let prompt := get_agent_prompt "ux_writer"
    [("idea", run.idea), ("architect_analysis", architect_analysis)]
  match client.generate prompt "ux_writer" with
  | .error e => (st, .error e)
  | .ok response =>
    let run := run.add_message .ux_writer response 3 ⟨"ux_writer", prompt.length⟩ now
    let st := (StorageService.update_run st run).1
    (st, .ok run)

/-- `Orchestrator._run_mockup_designer` (src/core/orchestration.py, lines
153–195): context is the idea plus the last architect and ux-writer
messages; appends the step-4 message; then tries to parse the response as
JSON, saving the pretty-printed re-serialization as the `mockup_json`
artifact when parsing succeeds and the raw response text when it fails;
finally persists the run.  The parse outcome never raises. -/
def Orchestrator.run_mockup_designer {J : Type} (jm : JsonModel J) (client : LLMClient)
    (st : Store) (run : Run) (now : Nat) : Store × Except String Run :=
  let ux_writer_messages := run.messages.filter fun m => m.role == .ux_writer
  let ux_writer_analysis := (ux_writer_messages.getLast?.map Message.content).getD ""
  let architect_messages := run.messages.filter fun m => m.role == .architect
  let architect_analysis := (architect_messages.getLast?.map Message.content).getD ""
  let prompt := get_agent_prompt "mockup_designer"
    [("idea", run.idea), ("architect_analysis", architect_analysis),
     ("ux_writer_analysis", ux_writer_analysis)]
  match client.generate prompt "mockup_designer" with
  | .error e => (st, .error e)
  | .ok response =>
    let run := run.add_message .mockup_designer response 4 ⟨"mockup_designer", prompt.length⟩ now
    let mockup_content :=
      match jm.loads response with
      | some mockup_data => jm.dumps mockup_data
      | none => response
    let st := (StorageService.save_artifact jm st run.id "mockup_json" mockup_content).1
    let st := (StorageService.update_run st run).1
    (st, .ok run)

/-- `Orchestrator._format_conversation_history` (src/core/orchestration.py,
lines 234–242): one block per message — a `=== ROLE (Step N) ===` header,
the content, and a blank line — joined with newlines, in append order. -/
def Orchestrator.format_conversation_history (run : Run) : String :=
  String.intercalate "\n" (run.messages.flatMap fun message =>
    ["=== " ++ pyUpper message.role.value ++ " (Step " ++ toString message.step ++ ") ===",
     message.content, ""])

/-- `Orchestrator._generate_pdf` (src/core/orchestration.py, lines 244–255):
renders the PRD to the run's `prd_pdf` path when one is registered; every
failure is caught and logged, so this never raises and the Boolean outcome
is dropped. -/
def Orchestrator.generate_pdf (st : Store) (run : Run) (prd_content : String) : Store :=
  let pdf_path := run.get_artifact_path "prd_pdf"
  if pdf_path ≠ "" then
    (PDFGenerator.generate_from_markdown st prd_content pdf_path).1
  else
    st

/-- `Orchestrator._run_synthesizer` (src/core/orchestration.py, lines
197–232): builds the transcript and the PRD template into the prompt,
appends the step-5 message, saves the `prd_markdown` artifact, renders the
PDF, and persists the run. -/
def Orchestrator.run_synthesizer {J : Type} (jm : JsonModel J) (client : LLMClient)
    (st : Store) (run : Run) (now : Nat) : Store × Except String Run :=
  let conversation_history := Orchestrator.format_conversation_history run
  let prompt := get_agent_prompt "synthesizer"
    [("conversation_history", conversation_history), ("prd_template", get_prd_template)]
  match client.generate prompt "synthesizer" with
  | .error e => (st, .error e)
  | .ok response =>
    let run := run.add_message .synthesizer response 5 ⟨"synthesizer", prompt.length⟩ now
    let st := (StorageService.save_artifact jm st run.id "prd_markdown" response).1
    let st := Orchestrator.generate_pdf st run response
    let st := (StorageService.update_run st run).1
    (st, .ok run)

/-- `Orchestrator._save_conversation_artifact` (src/core/orchestration.py,
lines 257–285): serializes the run's conversation snapshot and stores it
under the `conversation` artifact type; the Boolean outcome is ignored. -/
def Orchestrator.save_conversation_artifact {J : Type} (jm : JsonModel J)
    (st : Store) (run : Run) : Store :=
  (StorageService.save_artifact jm st run.id "conversation" (jm.dumpsConversation run)).1

/-- `Orchestrator.run_agents` (src/core/orchestration.py, lines 24–67): load
the run (raising when it is absent), mark it running, persist, drive the
five stages in order, mark it completed, persist, and save the conversation
snapshot.  If any stage raises, the run is marked failed, persisted, and the
exception is re-raised. -/
def Orchestrator.run_agents {J : Type} (jm : JsonModel J) (client : LLMClient)
    (st : Store) (run_id : String) (now : Nat) : Store × Except String Run :=
  match StorageService.get_run st run_id with
  | none => (st, .error ("Run not found: " ++ run_id))
  | some run =>
    let run := run.update_status .running now
    let st := (StorageService.update_run st run).1
    match Orchestrator.run_strategist client st run now with
    | (st, .error e) =>
      let run := run.update_status .failed now
      let st := (StorageService.update_run st run).1
      (st, .error e)
    | (st, .ok run) =>
      match Orchestrator.run_architect jm client st run now with
      | (st, .error e) =>
        let run := run.update_status .failed now
        let st := (StorageService.update_run st run).1
        (st, .error e)
      | (st, .ok run) =>
        match Orchestrator.run_ux_writer client st run now with
        | (st, .error e) =>
          let run := run.update_status .failed now
          let st := (StorageService.update_run st run).1
          (st, .error e)
        | (st, .ok run) =>
          match Orchestrator.run_mockup_designer jm client st run now with
          | (st, .error e) =>
            let run := run.update_status .failed now
            let st := (StorageService.update_run st run).1
            (st, .error e)
          | (st, .ok run) =>
            match Orchestrator.run_synthesizer jm client st run now with
            | (st, .error e) =>
              let run := run.update_status .failed now
              let st := (StorageService.update_run st run).1
              (st, .error e)
            | (st, .ok run) =>
              let run := run.update_status .completed now
              let st := (StorageService.update_run st run).1
              let st := Orchestrator.save_conversation_artifact jm st run
              (st, .ok run)

/-! ## Specification-shaped restatements and concrete fixtures -/

/-- The fitness domain's token/phrase substitution set (spec §4.2). -/
def fitnessPairs : List (String × String) :=
  [("[problem domain]", "fitness tracking"), ("[main use case]", "workout planning"),
   ("[item]", "workout"), ("[Item]", "Workout"),
   ("[Product]", "Fitness Tracker"), ("[Product Name]", "Fitness Tracker")]

/-- The finance domain's token/phrase substitution set (spec §4.2). -/
def financePairs : List (String × String) :=
  [("[problem domain]", "personal finance management"), ("[main use case]", "budget tracking"),
   ("[item]", "transaction"), ("[Item]", "Transaction"),
   ("[Product]", "Finance Manager"), ("[Product Name]", "Finance Manager")]

/-- The meditation domain's token/phrase substitution set (spec §4.2). -/
def meditationPairs : List (String × String) :=
  [("[problem domain]", "stress management and mental wellness"),
   ("[main use case]", "meditation practice"),
   ("[item]", "meditation session"), ("[Item]", "Meditation Session"),
   ("[Product]", "Mindfulness App"), ("[Product Name]", "Mindfulness App")]

/-- The productivity domain's token/phrase substitution set (spec §4.2). -/
def productivityPairs : List (String × String) :=
  [("[problem domain]", "task management and productivity"),
   ("[main use case]", "task organization"),
   ("[item]", "task"), ("[Item]", "Task"),
   ("[Product]", "Productivity Manager"), ("[Product Name]", "Productivity Manager")]

/-- The generic token/phrase substitution set used when no keyword matches. -/
def genericPairs : List (String × String) :=
  [("[problem domain]", "the problem domain"), ("[main use case]", "the main use case"),
   ("[item]", "item"), ("[Item]", "Item"),
   ("[Product]", "Product"), ("[Product Name]", "Product Name")]

/-- Spec-shaped domain selection: scan the prompt case-insensitively for the
four keyword sets in priority order, first match wins, generic otherwise. -/
def selectedDomainPairs (prompt : String) : List (String × String) :=
  if containsAnyKeyword prompt ["fitness", "workout", "exercise", "gym"] then fitnessPairs
  else if containsAnyKeyword prompt ["finance", "budget", "money", "investment", "banking"] then
    financePairs
  else if containsAnyKeyword prompt ["meditation", "mindfulness", "relax", "stress", "mental"] then
    meditationPairs
  else if containsAnyKeyword prompt ["productivity", "task", "todo", "schedule", "project", "team"] then
    productivityPairs
  else genericPairs

/-- Apply a list of token/phrase substitutions to a response, in order. -/
def applyPairs (response : String) (pairs : List (String × String)) : String :=
  pairs.foldl (fun r p => pyReplace r p.1 p.2) response

/-- The `Run` value that `StorageService.create_run` constructs for a fresh
idea: pending, no messages, the five artifact paths registered. -/
def freshRun (newId idea : String) (now : Nat) : Run :=
  let run : Run :=
    { id := newId, idea := idea, status := .pending, created_at := now,
      updated_at := now, completed_at := none, messages := [],
      user_answers := [], assumptions := [], artifacts := [], metadata := [] }
  let run := run.set_artifact_path "prd_markdown" (newId ++ "/PRD.md") now
  let run := run.set_artifact_path "prd_pdf" (newId ++ "/PRD.pdf") now
  let run := run.set_artifact_path "conversation" (newId ++ "/conversation.json") now
  let run := run.set_artifact_path "mockup_json" (newId ++ "/mockup.json") now
  run.set_artifact_path "bundle" (newId ++ "/bundle.zip") now

/-- A concrete JSON model for witnesses: every string parses, and the
canonical re-serialization prepends a marker so the two branches of the
mockup artifact logic are visibly distinct. -/
def jmW : JsonModel String :=
  { loads := some, dumps := fun j => "canonical " ++ j,
    dumpsStrMap := fun _ => "serialized answers",
    dumpsConversation := fun _ => "serialized conversation" }

/-- A concrete fresh run used by witnesses. -/
def wRun : Run := freshRun "run-1" "a fitness app" 0

/-- A store holding `wRun`, with working persistence. -/
def wStore : Store := { runs := [("run-1", wRun)], files := [], saveOk := true }

/-- A store holding `wRun` whose filesystem writes all fail. -/
def wStoreNoSave : Store := { runs := [("run-1", wRun)], files := [], saveOk := false }

/-- An empty store with working persistence. -/
def wEmptyStore : Store := { runs := [], files := [], saveOk := true }

/-- A run already in the terminal `completed` state, with one prior message,
used to exercise re-invocation of the pipeline. -/
def rerunRun : Run :=
  { id := "run-9", idea := "a budget planner", status := .completed,
    created_at := 0, updated_at := 3, completed_at := some 3,
    messages := [⟨.user, "prior note", 1, 0, ⟨"user", 0⟩⟩],
    user_answers := [], assumptions := [],
    artifacts := [("prd_markdown", "run-9/PRD.md"), ("prd_pdf", "run-9/PRD.pdf"),
                  ("conversation", "run-9/conversation.json"),
                  ("mockup_json", "run-9/mockup.json"), ("bundle", "run-9/bundle.zip")],
    metadata := [] }

/-- A store holding the already-completed `rerunRun`. -/
def wStoreRerun : Store := { runs := [("run-9", rerunRun)], files := [], saveOk := true }

/-! ## Shared lemmas -/

/-- Looking up the key just written by `upsert` yields the written value. -/
theorem lookup_upsert_self {α β : Type} [DecidableEq α] (m : List (α × β)) (k : α) (v : β) :
    (upsert m k v).lookup k = some v := by
  induction m with
  | nil => simp [upsert, List.lookup]
  | cons h t ih =>
    obtain ⟨k₁, v₁⟩ := h
    by_cases hk : k₁ = k
    · simp [upsert, hk, List.lookup]
    · simp only [upsert, if_neg hk, List.lookup]
      have hb : (k == k₁) = false := by
        simp [beq_iff_eq]
        exact fun hh => hk hh.symm
      rw [hb]
      exact ih

/-- The two copies of `_apply_keyword_replacement` (on `StubLLMClient` and on
`AutoGenLLMClient`) are the same function. -/
theorem apply_keyword_replacement_agree :
    StubLLMClient.apply_keyword_replacement = AutoGenLLMClient.apply_keyword_replacement := rfl

/-- `create_run` on a store with working persistence returns the fresh run
and registers it under its new identifier. -/
theorem create_run_eq (st : Store) (newId idea : String) (now : Nat)
    (h : st.saveOk = true) :
    StorageService.create_run st newId idea now =
      .ok ({ st with runs := upsert st.runs newId (freshRun newId idea now) },
           freshRun newId idea now) := by
  unfold StorageService.create_run
  simp [h]
  exact ⟨rfl, rfl⟩

/-- Main success lemma: when the store holds the run and every generation
call succeeds, `run_agents` returns a completed run carrying the five stage
messages appended, in order, after whatever messages the run already had. -/
theorem run_agents_ok {J : Type} (jm : JsonModel J) (f : String → String → String)
    (st : Store) (rid : String) (r : Run) (now : Nat)
    (hget : StorageService.get_run st rid = some r) :
    ∃ stOut run,
      Orchestrator.run_agents jm (totalClient f) st rid now = (stOut, .ok run) ∧
      run.id = r.id ∧ run.idea = r.idea ∧
      run.status = .completed ∧ run.completed_at = some now ∧
      run.messages.map Message.step = r.messages.map Message.step ++ [1, 2, 3, 4, 5] ∧
      run.messages.map Message.role = r.messages.map Message.role ++
        [.strategist, .architect, .ux_writer, .mockup_designer, .synthesizer] := by
  unfold Orchestrator.run_agents
  rw [hget]
  refine ⟨_, _, rfl, rfl, rfl, rfl, rfl, ?_, ?_⟩
  · simp [Run.add_message, Run.update_status, List.map_append]
  · simp [Run.add_message, Run.update_status, List.map_append]

/-- Failure lemma for stage 3: when the backend raises for the `ux_writer`
stage, `run_agents` re-raises the exception and the persisted run is
`failed` with exactly the stage-1 and stage-2 messages appended. -/
theorem run_agents_stage3_fail {J : Type} (jm : JsonModel J) (f : String → String → String)
    (e : String) (st : Store) (r : Run) (now : Nat)
    (hget : StorageService.get_run st r.id = some r) (hsave : st.saveOk = true) :
    ∃ stOut,
      Orchestrator.run_agents jm (stage3FailClient f e) st r.id now = (stOut, .error e) ∧
      ∃ run, StorageService.get_run stOut r.id = some run ∧
        run.status = .failed ∧
        run.messages.map Message.step = r.messages.map Message.step ++ [1, 2] ∧
        run.messages.map Message.role = r.messages.map Message.role ++ [.strategist, .architect] := by
  obtain ⟨runs, files, sOk⟩ := st
  simp only [Store.saveOk] at hsave
  subst hsave
  unfold Orchestrator.run_agents
  rw [hget]
  refine ⟨_, rfl, ?_⟩
  exact ⟨_, lookup_upsert_self _ _ _, rfl,
    by simp [Run.add_message, Run.update_status, List.map_append],
    by simp [Run.add_message, Run.update_status, List.map_append]⟩

/-- `update_run` on a store whose writes fail returns `false` and leaves the
store unchanged. -/
theorem update_run_noSave (st : Store) (run : Run) (h : st.saveOk = false) :
    StorageService.update_run st run = (st, false) := by
  simp [StorageService.update_run, h]

/-- `save_artifact` on a store whose writes fail returns `false` and leaves
the store unchanged. -/
theorem save_artifact_noSave {J : Type} (jm : JsonModel J) (st : Store)
    (run_id artifact_type content : String) (h : st.saveOk = false) :
    StorageService.save_artifact jm st run_id artifact_type content = (st, false) := by
  unfold StorageService.save_artifact
  rcases StorageService.get_run st run_id with _ | run
  · rfl
  · simp [h]

/-- `_generate_pdf` on a store whose writes fail leaves the store unchanged. -/
theorem generate_pdf_noSave (st : Store) (run : Run) (c : String) (h : st.saveOk = false) :
    Orchestrator.generate_pdf st run c = st := by
  unfold Orchestrator.generate_pdf PDFGenerator.generate_from_markdown
  simp [h]

/-! ## Claim theorems -/

/-- C1: for every idea string, when every stage's generation call succeeds,
the Run returned by `run_agents` has status `completed` and contains exactly
5 messages whose step fields are 1,2,3,4,5 in append order and whose roles
are, in order, strategist, architect, ux_writer, mockup_designer,
synthesizer. -/
theorem C1_completed_run_five_messages {J : Type} (jm : JsonModel J)
    (f : String → String → String) (st : Store) (newId idea : String)
    (t₀ t₁ : Nat) (hsave : st.saveOk = true) :
    ∃ st₁ run₀,
      StorageService.create_run st newId idea t₀ = .ok (st₁, run₀) ∧
      ∃ stOut run,
        Orchestrator.run_agents jm (totalClient f) st₁ newId t₁ = (stOut, .ok run) ∧
        run.status = .completed ∧
        run.messages.length = 5 ∧
        run.messages.map Message.step = [1, 2, 3, 4, 5] ∧
        run.messages.map Message.role =
          [.strategist, .architect, .ux_writer, .mockup_designer, .synthesizer] := by
  refine ⟨_, _, create_run_eq st newId idea t₀ hsave, ?_⟩
  have hget : StorageService.get_run
      { st with runs := upsert st.runs newId (freshRun newId idea t₀) } newId =
      some (freshRun newId idea t₀) := lookup_upsert_self _ _ _
  obtain ⟨stOut, run, heq, _hid, _hidea, hstat, _hca, hsteps, hroles⟩ :=
    run_agents_ok jm f _ newId _ t₁ hget
  have hmsgs : (freshRun newId idea t₀).messages = [] := rfl
  rw [hmsgs] at hsteps hroles
  simp only [List.map_nil, List.nil_append] at hsteps hroles
  refine ⟨stOut, run, heq, hstat, ?_, hsteps, hroles⟩
  have h := congrArg List.length hsteps
  simpa using h

/-- Witness for C1 at a concrete idea, store and backend. -/
theorem C1_completed_run_five_messages_witness :
    ∃ st₁ run₀,
      StorageService.create_run wEmptyStore "run-1" "a fitness app" 0 = .ok (st₁, run₀) ∧
      ∃ stOut run,
        Orchestrator.run_agents jmW (totalClient fun _ _ => "stage output")
          st₁ "run-1" 1 = (stOut, .ok run) ∧
        run.status = .completed ∧
        run.messages.length = 5 ∧
        run.messages.map Message.step = [1, 2, 3, 4, 5] ∧
        run.messages.map Message.role =
          [.strategist, .architect, .ux_writer, .mockup_designer, .synthesizer] :=
  C1_completed_run_five_messages jmW (fun _ _ => "stage output")
    wEmptyStore "run-1" "a fitness app" 0 1 rfl

/-- C2: if the generation backend raises during stage 3 (ux_writer), then
`run_agents` leaves the Run with status `failed` and exactly the 2 messages
appended by stages 1 and 2 (steps 1 and 2), with no partial message for
stage 3, and re-raises the exception to the caller. -/
theorem C2_stage3_failure_isolation {J : Type} (jm : JsonModel J)
    (f : String → String → String) (e : String) (st : Store)
    (newId idea : String) (t₀ t₁ : Nat) (hsave : st.saveOk = true) :
    ∃ st₁ run₀,
      StorageService.create_run st newId idea t₀ = .ok (st₁, run₀) ∧
      ∃ stOut,
        Orchestrator.run_agents jm (stage3FailClient f e) st₁ newId t₁ = (stOut, .error e) ∧
        ∃ run, StorageService.get_run stOut newId = some run ∧
          run.status = .failed ∧
          run.messages.map Message.step = [1, 2] ∧
          run.messages.map Message.role = [.strategist, .architect] := by
  refine ⟨_, _, create_run_eq st newId idea t₀ hsave, ?_⟩
  have hget : StorageService.get_run
      { st with runs := upsert st.runs newId (freshRun newId idea t₀) }
      (freshRun newId idea t₀).id = some (freshRun newId idea t₀) :=
    lookup_upsert_self _ _ _
  obtain ⟨stOut, heq, run, hlk, hstat, hsteps, hroles⟩ :=
    run_agents_stage3_fail jm f e _ (freshRun newId idea t₀) t₁ hget hsave
  have hmsgs : (freshRun newId idea t₀).messages = [] := rfl
  rw [hmsgs] at hsteps hroles
  simp only [List.map_nil, List.nil_append] at hsteps hroles
  exact ⟨stOut, heq, run, hlk, hstat, hsteps, hroles⟩

/-- Witness for C2 at a concrete idea, store and failing backend. -/
theorem C2_stage3_failure_isolation_witness :
    ∃ st₁ run₀,
      StorageService.create_run wEmptyStore "run-1" "a budget app" 0 = .ok (st₁, run₀) ∧
      ∃ stOut,
        Orchestrator.run_agents jmW (stage3FailClient (fun _ _ => "fine") "backend crash")
          st₁ "run-1" 1 = (stOut, .error "backend crash") ∧
        ∃ run, StorageService.get_run stOut "run-1" = some run ∧
          run.status = .failed ∧
          run.messages.map Message.step = [1, 2] ∧
          run.messages.map Message.role = [.strategist, .architect] :=
  C2_stage3_failure_isolation jmW (fun _ _ => "fine") "backend crash"
    wEmptyStore "run-1" "a budget app" 0 1 rfl

/-- C7: for every run identifier the store does not hold, `run_agents`
raises the not-found error to the caller and mutates no state. -/
theorem C7_run_not_found {J : Type} (jm : JsonModel J) (client : LLMClient)
    (st : Store) (run_id : String) (now : Nat)
    (h : StorageService.get_run st run_id = none) :
    Orchestrator.run_agents jm client st run_id now =
      (st, .error ("Run not found: " ++ run_id)) := by
  unfold Orchestrator.run_agents
  rw [h]

/-- Witness for C7 at a concrete missing identifier. -/
theorem C7_run_not_found_witness :
    StorageService.get_run wEmptyStore "nonexistent" = none ∧
    Orchestrator.run_agents jmW (totalClient fun _ _ => "x") wEmptyStore "nonexistent" 0 =
      (wEmptyStore, .error ("Run not found: " ++ "nonexistent")) :=
  ⟨rfl, C7_run_not_found jmW (totalClient fun _ _ => "x") wEmptyStore "nonexistent" 0 rfl⟩

/-- C10: `run_agents` imposes no precondition on the Run's current status:
for a Run in any state, including one already completed or failed with
existing messages, invoking it appends exactly 5 further messages when all
stages succeed (final count is the pre-existing count plus 5) and sets the
status to `completed` again. -/
theorem C10_rerun_no_precondition {J : Type} (jm : JsonModel J)
    (f : String → String → String) (st : Store) (r : Run) (now : Nat)
    (hget : StorageService.get_run st r.id = some r) :
    ∃ stOut run,
      Orchestrator.run_agents jm (totalClient f) st r.id now = (stOut, .ok run) ∧
      run.status = .completed ∧
      run.messages.length = r.messages.length + 5 ∧
      run.messages.map Message.step = r.messages.map Message.step ++ [1, 2, 3, 4, 5] ∧
      run.messages.map Message.role = r.messages.map Message.role ++
        [.strategist, .architect, .ux_writer, .mockup_designer, .synthesizer] := by
  obtain ⟨stOut, run, heq, _hid, _hidea, hstat, _hca, hsteps, hroles⟩ :=
    run_agents_ok jm f st r.id r now hget
  refine ⟨stOut, run, heq, hstat, ?_, hsteps, hroles⟩
  have h := congrArg List.length hsteps
  simpa using h

/-- Witness for C10: re-running a Run that is already completed and has a
pre-existing message. -/
theorem C10_rerun_no_precondition_witness :
    ∃ stOut run,
      Orchestrator.run_agents jmW (totalClient fun _ _ => "regenerated")
        wStoreRerun "run-9" 7 = (stOut, .ok run) ∧
      run.status = .completed ∧
      run.messages.length = 6 ∧
      run.messages.map Message.step = [0, 1, 2, 3, 4, 5] ∧
      run.messages.map Message.role =
        [.user, .strategist, .architect, .ux_writer, .mockup_designer, .synthesizer] :=
  C10_rerun_no_precondition jmW (fun _ _ => "regenerated") wStoreRerun rerunRun 7 rfl

/-- C3: whenever a step of the remote variant's generation fails (an
exception, a missing chat-messages entry, or an empty message list), the
remote `generate` does not raise: it returns exactly the deterministic
variant's canned per-stage response with keyword substitution applied. -/
theorem C3_remote_failure_falls_back_to_stub (remote : RemoteOutcome)
    (prompt agent_name : String) (h : remote.isFailure = true) :
    AutoGenLLMClient.generate remote prompt agent_name =
      StubLLMClient.generate prompt agent_name := by
  cases remote with
  | raised e => rfl
  | chat msgs =>
    cases msgs with
    | none => rfl
    | some l =>
      cases l with
      | nil => rfl
      | cons a as => simp [RemoteOutcome.isFailure] at h

/-- Witness for C3 at a concrete raised exception. -/
theorem C3_remote_failure_falls_back_to_stub_witness :
    RemoteOutcome.isFailure (.raised "service unavailable") = true ∧
    AutoGenLLMClient.generate (.raised "service unavailable") "plan a workout app" "strategist" =
      StubLLMClient.generate "plan a workout app" "strategist" :=
  ⟨rfl, C3_remote_failure_falls_back_to_stub (.raised "service unavailable")
    "plan a workout app" "strategist" rfl⟩

/-- C4 counterexample: the claim also asserts that no literal occurrence of
the six tokens remains in the output, but for the response consisting of a
token wrapped in one extra bracket pair and a prompt matching no keyword,
the generic substitution recreates the literal token in the output. -/
theorem C4_counterexample_token_recreated :
    StubLLMClient.apply_keyword_replacement "[[item]]" "hello world" = "[item]" ∧
    pyContains (StubLLMClient.apply_keyword_replacement "[[item]]" "hello world") "[item]" = true ∧
    containsAnyKeyword "hello world"
      ["fitness", "workout", "exercise", "gym", "finance", "budget", "money", "investment",
       "banking", "meditation", "mindfulness", "relax", "stress", "mental", "productivity",
       "task", "todo", "schedule", "project", "team"] = false := by
  decide

/-- C4 (amended): keyword substitution scans the prompt case-insensitively
for the four domain keyword sets in priority order, the first matching set
wins, and the six tokens are each replaced everywhere with that domain's
canonical phrases (for example a prompt containing "workout" maps the
product token to "Fitness Tracker"); a replacement may textually recreate a
token, so a literal token can remain; if no keyword matches, the generic
phrase set is substituted instead. -/
theorem C4_keyword_substitution_amended :
    (∀ response prompt,
      StubLLMClient.apply_keyword_replacement response prompt =
        applyPairs response (selectedDomainPairs prompt)) ∧
    StubLLMClient.apply_keyword_replacement "[Product]" "build me a workout app" =
      "Fitness Tracker" := by
  constructor
  · intro response prompt
    unfold StubLLMClient.apply_keyword_replacement selectedDomainPairs
    by_cases h1 : containsAnyKeyword prompt ["fitness", "workout", "exercise", "gym"] = true
    · simp only [h1, if_true]; rfl
    · simp only [h1, if_false, Bool.false_eq_true]
      by_cases h2 : containsAnyKeyword prompt
          ["finance", "budget", "money", "investment", "banking"] = true
      · simp only [h2, if_true]; rfl
      · simp only [h2, if_false, Bool.false_eq_true]
        by_cases h3 : containsAnyKeyword prompt
            ["meditation", "mindfulness", "relax", "stress", "mental"] = true
        · simp only [h3, if_true]; rfl
        · simp only [h3, if_false, Bool.false_eq_true]
          by_cases h4 : containsAnyKeyword prompt
              ["productivity", "task", "todo", "schedule", "project", "team"] = true
          · simp only [h4, if_true]; rfl
          · simp only [h4, if_false, Bool.false_eq_true]; rfl
  · decide

/-- C5: the keyword-substitution functions of the deterministic variant and
of the remote variant's fallback path return identical output on every
response/prompt pair. -/
theorem C5_replacement_functions_identical (response prompt : String) :
    StubLLMClient.apply_keyword_replacement response prompt =
      AutoGenLLMClient.apply_keyword_replacement response prompt :=
  congrFun (congrFun apply_keyword_replacement_agree response) prompt

/-- C6: for every stage-4 response text, if the text parses as JSON the
content stored under the run's mockup artifact path is the canonical
re-serialization of the parsed value, and if parsing fails it is the raw
response text verbatim; in neither case does the parse outcome abort the
stage. -/
theorem C6_mockup_artifact_content {J : Type} (jm : JsonModel J) (st : Store)
    (r : Run) (now : Nat) (response : String)
    (hget : StorageService.get_run st r.id = some r) (hsave : st.saveOk = true) :
    ∃ stOut run,
      Orchestrator.run_mockup_designer jm ⟨fun _ _ => .ok response⟩ st r now = (stOut, .ok run) ∧
      stOut.files.lookup (r.get_artifact_path "mockup_json") =
        some (match jm.loads response with
              | some d => jm.dumps d
              | none => response) := by
  obtain ⟨runs, files, sOk⟩ := st
  simp only [Store.saveOk] at hsave
  subst hsave
  simp only [StorageService.get_run] at hget
  unfold Orchestrator.run_mockup_designer
  refine ⟨_, _, rfl, ?_⟩
  simp only [StorageService.save_artifact, StorageService.get_run, StorageService.update_run,
    Run.add_message]
  rw [hget]
  rcases jm.loads response with _ | d
  · simp [lookup_upsert_self]
  · simp [lookup_upsert_self]

/-- Witness for C6 at a concrete store, run and response. -/
theorem C6_mockup_artifact_content_witness :
    ∃ stOut run,
      Orchestrator.run_mockup_designer jmW ⟨fun _ _ => .ok "mock spec"⟩ wStore wRun 2 =
        (stOut, .ok run) ∧
      stOut.files.lookup (wRun.get_artifact_path "mockup_json") =
        some "canonical mock spec" :=
  C6_mockup_artifact_content jmW wStore wRun 2 "mock spec" rfl rfl

/-- C8 counterexample: with a store whose persistence fails, `update_run`
reports the failure by returning false; yet the orchestrator run over that
store neither marks the Run failed nor raises — it returns a completed Run.
This refutes the claim that a persistence failure is treated as fatal. -/
theorem C8_counterexample_persistence_not_fatal :
    (StorageService.update_run wStoreNoSave wRun).2 = false ∧
    ((Orchestrator.run_agents jmW (totalClient fun _ _ => "agent output")
        wStoreNoSave "run-1" 3).2).map Run.status = Except.ok RunStatus.completed :=
  ⟨rfl, rfl⟩

/-- C8 (amended): a persistence failure during a stage is swallowed:
`update_run` catches the write error and returns false, the orchestrator
ignores that return value, so the pipeline neither marks the Run failed nor
raises — it runs to completion, returns the completed Run, and leaves the
store exactly as it was (nothing is persisted). -/
theorem C8_persistence_failure_swallowed {J : Type} (jm : JsonModel J)
    (f : String → String → String) (st : Store) (r : Run) (now : Nat)
    (hget : StorageService.get_run st r.id = some r) (hsave : st.saveOk = false) :
    ∃ stOut run,
      Orchestrator.run_agents jm (totalClient f) st r.id now = (stOut, .ok run) ∧
      stOut = st ∧
      run.status = .completed ∧
      run.messages.map Message.step = r.messages.map Message.step ++ [1, 2, 3, 4, 5] := by
  unfold Orchestrator.run_agents
  rw [hget]
  refine ⟨_, _, rfl, ?_, rfl, ?_⟩
  · simp only [Orchestrator.run_strategist, Orchestrator.run_architect,
      Orchestrator.run_ux_writer, Orchestrator.run_mockup_designer,
      Orchestrator.run_synthesizer, Orchestrator.save_conversation_artifact, totalClient]
    simp [update_run_noSave, save_artifact_noSave, generate_pdf_noSave, hsave]
  · simp [Run.add_message, Run.update_status, List.map_append]

/-- Witness for C8 (amended) at a concrete store whose writes fail. -/
theorem C8_persistence_failure_swallowed_witness :
    ∃ stOut run,
      Orchestrator.run_agents jmW (totalClient fun _ _ => "agent output")
        wStoreNoSave "run-1" 3 = (stOut, .ok run) ∧
      stOut = wStoreNoSave ∧
      run.status = .completed ∧
      run.messages.map Message.step = [1, 2, 3, 4, 5] :=
  C8_persistence_failure_swallowed jmW (fun _ _ => "agent output")
    wStoreNoSave wRun 3 rfl rfl

/-- C9 counterexample: `update_status` run on an already-completed Run
overwrites its `completed_at` stamp on a repeated transition into
`completed`, and a transition to `running` leaves the `completed` state —
so `completed_at` is not write-once and `completed` is not terminal. -/
theorem C9_counterexample_terminality :
    rerunRun.status = RunStatus.completed ∧
    rerunRun.completed_at = some 3 ∧
    (rerunRun.update_status RunStatus.completed 9).completed_at = some 9 ∧
    (rerunRun.update_status RunStatus.running 9).status = RunStatus.running :=
  ⟨rfl, rfl, rfl, rfl⟩

/-- C9 (amended): `update_status` stamps `completed_at` with the current
time on every transition into `completed` — including repeated ones, which
overwrite the previous stamp — and leaves it unchanged otherwise; no status
is terminal: `update_status` moves a Run from any status to the requested
one. -/
theorem C9_update_status_amended (r : Run) (status : RunStatus) (now : Nat) :
    (r.update_status status now).status = status ∧
    (r.update_status status now).updated_at = now ∧
    (r.update_status status now).completed_at =
      (if status = .completed then some now else r.completed_at) :=
  ⟨rfl, rfl, rfl⟩

end AIPM
